import Mathlib

/-!
Shallow embedding of the device-selection and swapchain-negotiation logic of
the `learning-vulkan` tutorial repository (snapshot
`DrawingATriangle/DrawingATriangle_Drawing/main.cpp`, which agrees with the
`DrawingATriangle_Presentation` snapshot on every function modelled here).

External API query results (queue-family properties, available extensions,
surface formats, present modes, surface capabilities, framebuffer size) are
passed in as explicit values; Vulkan enum values are the numeric constants of
`vulkan_core.h`; `uint32_t` is modelled as `Nat` (no arithmetic here comes
near overflow except the `UINT32_MAX` sentinel, modelled by its exact value).
-/

namespace LearningVulkan

/-- Requested validation layers (main.cpp:21-23). -/
def validationLayers : List String := ["VK_LAYER_KHRONOS_validation"]

/-- Validation layers are enabled in a debug build (main.cpp:25-29). -/
def enableValidationLayers : Bool := true

/-- Required physical-device extensions (main.cpp:32-34):
`VK_KHR_SWAPCHAIN_EXTENSION_NAME`. -/
def deviceExtensions : List String := ["VK_KHR_swapchain"]

/-- Embedding of `UINT32_MAX`, the "window manager decides the extent" sentinel. -/
def uint32Max : Nat := 4294967295

/-- Embedding of `VK_FORMAT_B8G8R8A8_SRGB` (vulkan_core.h value 50). -/
def vkFormatB8G8R8A8Srgb : Nat := 50

/-- Embedding of `VK_COLOR_SPACE_SRGB_NONLINEAR_KHR` (vulkan_core.h value 0). -/
def vkColorSpaceSrgbNonlinearKhr : Nat := 0

/-- Embedding of `VK_PRESENT_MODE_IMMEDIATE_KHR` (vulkan_core.h value 0). -/
def vkPresentModeImmediateKhr : Nat := 0

/-- Embedding of `VK_PRESENT_MODE_MAILBOX_KHR` (vulkan_core.h value 1). -/
def vkPresentModeMailboxKhr : Nat := 1

/-- Embedding of `VK_PRESENT_MODE_FIFO_KHR` (vulkan_core.h value 2). -/
def vkPresentModeFifoKhr : Nat := 2

/-- Embedding of `VkExtent2D`: a width/height pair of `uint32_t`. -/
structure VkExtent2D where
  width : Nat
  height : Nat
deriving DecidableEq

/-- Embedding of `VkSurfaceFormatKHR`: pixel format and color space (numeric enums). -/
structure VkSurfaceFormatKHR where
  format : Nat
  colorSpace : Nat
deriving DecidableEq

/-- The fields of `VkSurfaceCapabilitiesKHR` the repository reads. -/
structure VkSurfaceCapabilitiesKHR where
  minImageCount : Nat
  maxImageCount : Nat
  currentExtent : VkExtent2D
  minImageExtent : VkExtent2D
  maxImageExtent : VkExtent2D
  maxImageArrayLayers : Nat
deriving DecidableEq

/-- Embedding of `SwapChainSupportDetails` (main.cpp:52-61): capabilities plus the
surface-format and present-mode lists reported for the device/surface pair. -/
structure SwapChainSupportDetails where
  capabilities : VkSurfaceCapabilitiesKHR
  formats : List VkSurfaceFormatKHR
  presentationModes : List Nat
deriving DecidableEq

/-- Embedding of `SwapChainSupportDetails::isAdequate` (main.cpp:58-60): at least one
format and at least one present mode. -/
def SwapChainSupportDetails.isAdequate (d : SwapChainSupportDetails) : Bool :=
  !d.formats.isEmpty && !d.presentationModes.isEmpty

/-- One queue family as the repository observes it: the
`VK_QUEUE_GRAPHICS_BIT` test on `queueFlags` and the result of
`vkGetPhysicalDeviceSurfaceSupportKHR` for the target surface. -/
structure QueueFamily where
  supportsGraphics : Bool
  supportsPresentation : Bool
deriving DecidableEq

/-- A physical-device candidate as a capability snapshot: everything the
suitability check queries about it. -/
structure PhysicalDevice where
  queueFamilies : List QueueFamily
  availableExtensions : List String
  swapChainSupport : SwapChainSupportDetails
deriving DecidableEq

/-- Embedding of `QueueFamilyIndices` (main.cpp:38-49): optional graphics-family and
presentation-family indices. -/
structure QueueFamilyIndices where
  graphicsFamily : Option Nat
  presentationFamily : Option Nat
deriving DecidableEq

/-- Embedding of `QueueFamilyIndices::isComplete` (main.cpp:46-48). -/
def QueueFamilyIndices.isComplete (q : QueueFamilyIndices) : Bool :=
  q.graphicsFamily.isSome && q.presentationFamily.isSome

/-- The loop body of `findQueueFamilies` (main.cpp:567-586): scan the
families in order starting at index `i`; a family supporting graphics
overwrites `graphicsFamily` with its index, one supporting presentation
overwrites `presentationFamily`; after processing a family, exit early
when both slots are filled. -/
def findQueueFamiliesGo : List QueueFamily → Nat → QueueFamilyIndices → QueueFamilyIndices
  | [], _, indices => indices
  | qf :: rest, i, indices =>
    let indices1 := if qf.supportsGraphics then { indices with graphicsFamily := some i } else indices
    let indices2 :=
      if qf.supportsPresentation then { indices1 with presentationFamily := some i } else indices1
    if indices2.isComplete then indices2 else findQueueFamiliesGo rest (i + 1) indices2

/-- Embedding of `findQueueFamilies` (main.cpp:553-589), as a function of the queue-family
properties the API reports for the device. -/
def findQueueFamilies (queueFamilies : List QueueFamily) : QueueFamilyIndices :=
  findQueueFamiliesGo queueFamilies 0 ⟨none, none⟩

/-- Embedding of `checkDeviceExtensionSupport` (main.cpp:592-613): every required device
extension must occur in the available-extension list (the source erases each
available name from the set of required names and checks emptiness). -/
def checkDeviceExtensionSupport (availableExtensions : List String) : Bool :=
  (deviceExtensions.filter (fun e => !(availableExtensions.contains e))).isEmpty

/-- Embedding of `isDeviceSuitable` (main.cpp:522-550): complete queue-family indices,
all required extensions present, and (checked only once extensions are
known supported) an adequate swapchain. -/
def isDeviceSuitable (device : PhysicalDevice) : Bool :=
  let indices := findQueueFamilies device.queueFamilies
  let extensionsSupported := checkDeviceExtensionSupport device.availableExtensions
  let swapChainAdequate :=
    if extensionsSupported then device.swapChainSupport.isAdequate else false
  indices.isComplete && extensionsSupported && swapChainAdequate

/-- Error message thrown when no device is reported (main.cpp:500). -/
def noGpuError : String := "ERROR! Failed to find GPUs with Vulkan support!"

/-- Error message thrown when no device is suitable (main.cpp:516). -/
def noSuitableGpuError : String := "ERROR! Failed to find a suitable GPU!"

/-- The selection loop of `pickPhysicalDevice` (main.cpp:507-512): first
suitable device wins. -/
def pickPhysicalDeviceGo : List PhysicalDevice → Option PhysicalDevice
  | [] => none
  | d :: rest => if isDeviceSuitable d then some d else pickPhysicalDeviceGo rest

/-- Embedding of `pickPhysicalDevice` (main.cpp:494-519): throws when the device list is
empty, otherwise scans for the first suitable device and throws when none
qualifies. -/
def pickPhysicalDevice (devices : List PhysicalDevice) : Except String PhysicalDevice :=
  if devices.isEmpty then .error noGpuError
  else
    match pickPhysicalDeviceGo devices with
    | some d => .ok d
    | none => .error noSuitableGpuError

/-- Embedding of `chooseSwapSurfaceFormat` (main.cpp:708-719): first entry that is
BGRA8-sRGB with nonlinear-sRGB color space, else element 0 of the list.
The fallback `availableFormats[0]` is modelled with `Option` indexing, so
an empty list yields `none` instead of undefined behaviour. -/
def chooseSwapSurfaceFormat (availableFormats : List VkSurfaceFormatKHR) :
    Option VkSurfaceFormatKHR :=
  match availableFormats.find?
      (fun f => f.format == vkFormatB8G8R8A8Srgb && f.colorSpace == vkColorSpaceSrgbNonlinearKhr) with
  | some f => some f
  | none => availableFormats[0]?

/-- Embedding of `chooseSwapPresentationMode` (main.cpp:722-743): `MAILBOX` if present in
the list, else `FIFO`. -/
def chooseSwapPresentationMode (availablePresentationModes : List Nat) : Nat :=
  match availablePresentationModes.find? (fun m => m == vkPresentModeMailboxKhr) with
  | some m => m
  | none => vkPresentModeFifoKhr

/-- Embedding of `chooseSwapExtent` (main.cpp:746-775): `currentExtent` verbatim when its
width is not `UINT32_MAX`, otherwise the framebuffer size clamped
component-wise into `[minImageExtent, maxImageExtent]`. -/
def chooseSwapExtent (capabilities : VkSurfaceCapabilitiesKHR)
    (framebufferWidth framebufferHeight : Nat) : VkExtent2D :=
  if capabilities.currentExtent.width ≠ uint32Max then capabilities.currentExtent
  else
    { width := max capabilities.minImageExtent.width
        (min capabilities.maxImageExtent.width framebufferWidth),
      height := max capabilities.minImageExtent.height
        (min capabilities.maxImageExtent.height framebufferHeight) }

/-- The image-count computation of `createSwapChain` (main.cpp:790-795):
`minImageCount + 1`, clamped down to `maxImageCount` under the guard the
source actually writes, namely `maxImageArrayLayers > 0`. -/
def swapChainImageCount (capabilities : VkSurfaceCapabilitiesKHR) : Nat :=
  let imageCount := capabilities.minImageCount + 1
  if capabilities.maxImageArrayLayers > 0 && decide (imageCount > capabilities.maxImageCount) then
    capabilities.maxImageCount
  else imageCount

/-- Embedding of `VkSharingMode`. -/
inductive VkSharingMode where
  | exclusive
  | concurrent
deriving DecidableEq

/-- The sharing-mode fields of `VkSwapchainCreateInfoKHR` that
`createSwapChain` fills in (main.cpp:811-827). -/
structure SharingConfig where
  imageSharingMode : VkSharingMode
  queueFamilyIndexCount : Nat
  pQueueFamilyIndices : List Nat
deriving DecidableEq

/-- The sharing-mode decision of `createSwapChain` (main.cpp:811-827), as a
function of the two chosen queue-family indices (both present at this point,
read with `.value()`). -/
def swapChainSharingConfig (graphicsFamily presentationFamily : Nat) : SharingConfig :=
  let queueFamilyIndices := [graphicsFamily, presentationFamily]
  if graphicsFamily ≠ presentationFamily then
    { imageSharingMode := .concurrent, queueFamilyIndexCount := 2,
      pQueueFamilyIndices := queueFamilyIndices }
  else
    { imageSharingMode := .exclusive, queueFamilyIndexCount := 0, pQueueFamilyIndices := [] }

/-- The inner loop of `checkValidationLayerSupport` (main.cpp:309-314):
whether a requested layer name occurs in the available-layer list. -/
def layerFound (availableLayers : List String) (layerName : String) : Bool :=
  availableLayers.contains layerName

/-- The requested layers the outer loop of `checkValidationLayerSupport`
reports missing (main.cpp:306-323). -/
def missingLayers (availableLayers : List String) : List String :=
  validationLayers.filter (fun layerName => !(layerFound availableLayers layerName))

/-- Embedding of `checkValidationLayerSupport` (main.cpp:290-326): the loop only logs each
missing layer; the function returns `true` unconditionally (main.cpp:325). -/
def checkValidationLayerSupport (_availableLayers : List String) : Bool :=
  true

/-- Error message of the layer gate in `createInstance` (main.cpp:349). -/
def layersUnavailableError : String := "ERROR! Validation layers requested, but not available!"

/-- The validation-layer gate at the top of `createInstance`
(main.cpp:345-350): throws when layers are enabled and the support check
reports failure. -/
def createInstanceLayerCheck (availableLayers : List String) : Except String Unit :=
  if enableValidationLayers && !(checkValidationLayerSupport availableLayers) then
    .error layersUnavailableError
  else .ok ()

/-- The queue-handle state of the application after `createLogicalDevice`:
which (familyIndex, queueIndex) pair each member variable holds, `none`
when never assigned. -/
structure DeviceQueues where
  graphicsQueue : Option (Nat × Nat)
  presentationQueue : Option (Nat × Nat)
deriving DecidableEq

/-- Embedding of `vkGetDeviceQueue`: the handle retrieved for a family/queue index pair,
identified by that pair. -/
def getDeviceQueue (familyIndex queueIndex : Nat) : Nat × Nat :=
  (familyIndex, queueIndex)

/-- The queue-handle retrieval at the end of `createLogicalDevice`
(main.cpp:667-669): both `vkGetDeviceQueue` calls store into the
`graphicsQueue` member; `presentationQueue` (declared at main.cpp:91) is
never written. -/
def retrieveQueueHandles (graphicsFamilyIndex presentationFamilyIndex : Nat) : DeviceQueues :=
  let queues : DeviceQueues := { graphicsQueue := none, presentationQueue := none }
  let queues1 := { queues with graphicsQueue := some (getDeviceQueue graphicsFamilyIndex 0) }
  let queues2 := { queues1 with graphicsQueue := some (getDeviceQueue presentationFamilyIndex 0) }
  queues2

/-- The four suitability conditions as the claim states them: a graphics
queue family exists, a presentation queue family exists, every required
device extension is available, and both swapchain lists are non-empty. -/
def SuitableSpec (d : PhysicalDevice) : Prop :=
  (∃ qf ∈ d.queueFamilies, qf.supportsGraphics = true) ∧
  (∃ qf ∈ d.queueFamilies, qf.supportsPresentation = true) ∧
  (∀ e ∈ deviceExtensions, e ∈ d.availableExtensions) ∧
  d.swapChainSupport.formats ≠ [] ∧
  d.swapChainSupport.presentationModes ≠ []

/-- A concrete candidate satisfying every suitability condition: one queue
family supporting both capabilities, the swapchain extension available, and
non-empty format/present-mode lists. -/
def suitableDeviceExample : PhysicalDevice :=
  { queueFamilies := [⟨true, true⟩],
    availableExtensions := ["VK_KHR_swapchain"],
    swapChainSupport :=
      { capabilities := ⟨2, 2, ⟨800, 600⟩, ⟨1, 1⟩, ⟨4096, 4096⟩, 1⟩,
        formats := [⟨vkFormatB8G8R8A8Srgb, vkColorSpaceSrgbNonlinearKhr⟩],
        presentationModes := [vkPresentModeFifoKhr] } }

/-- The scan fills the graphics slot iff the accumulator already had it or
some remaining family supports graphics: the early exit loses nothing. -/
theorem findQueueFamiliesGo_graphics_isSome (qfs : List QueueFamily) :
    ∀ (i : Nat) (acc : QueueFamilyIndices),
      (findQueueFamiliesGo qfs i acc).graphicsFamily.isSome
        = (acc.graphicsFamily.isSome || qfs.any (fun qf => qf.supportsGraphics)) := by
  induction qfs with
  | nil => intro i acc; simp [findQueueFamiliesGo]
  | cons qf rest ih =>
    intro i acc
    obtain ⟨sg, sp⟩ := qf
    obtain ⟨g, p⟩ := acc
    cases sg <;> cases sp <;>
      simp [findQueueFamiliesGo, QueueFamilyIndices.isComplete, ih] <;>
      cases g <;> cases p <;> simp [ih]

/-- Analogue of `findQueueFamiliesGo_graphics_isSome` for presentation. -/
theorem findQueueFamiliesGo_presentation_isSome (qfs : List QueueFamily) :
    ∀ (i : Nat) (acc : QueueFamilyIndices),
      (findQueueFamiliesGo qfs i acc).presentationFamily.isSome
        = (acc.presentationFamily.isSome || qfs.any (fun qf => qf.supportsPresentation)) := by
  induction qfs with
  | nil => intro i acc; simp [findQueueFamiliesGo]
  | cons qf rest ih =>
    intro i acc
    obtain ⟨sg, sp⟩ := qf
    obtain ⟨g, p⟩ := acc
    cases sg <;> cases sp <;>
      simp [findQueueFamiliesGo, QueueFamilyIndices.isComplete, ih] <;>
      cases g <;> cases p <;> simp [ih]

/-- Completeness of the found indices is exactly the existence of a graphics
family and of a presentation family. -/
theorem findQueueFamilies_isComplete (qfs : List QueueFamily) :
    (findQueueFamilies qfs).isComplete
      = (qfs.any (fun qf => qf.supportsGraphics) && qfs.any (fun qf => qf.supportsPresentation)) := by
  simp [findQueueFamilies, QueueFamilyIndices.isComplete,
    findQueueFamiliesGo_graphics_isSome, findQueueFamiliesGo_presentation_isSome]

/-- The extension check succeeds iff every required extension is available. -/
theorem checkDeviceExtensionSupport_iff (availableExtensions : List String) :
    checkDeviceExtensionSupport availableExtensions = true
      ↔ ∀ e ∈ deviceExtensions, e ∈ availableExtensions := by
  simp [checkDeviceExtensionSupport, List.isEmpty_iff, List.filter_eq_nil_iff]

/-- Embedding of `isDeviceSuitable` decides exactly the four conditions of the claim. -/
theorem isDeviceSuitable_iff (d : PhysicalDevice) :
    isDeviceSuitable d = true ↔ SuitableSpec d := by
  unfold isDeviceSuitable SuitableSpec
  cases hext : checkDeviceExtensionSupport d.availableExtensions with
  | false =>
    simp only [hext, Bool.and_false, Bool.false_and, if_false]
    constructor
    · intro h; simp at h
    · rintro ⟨-, -, hreq, -, -⟩
      exact absurd ((checkDeviceExtensionSupport_iff _).mpr hreq) (by simp [hext])
  | true =>
    have hreq := (checkDeviceExtensionSupport_iff _).mp hext
    simp [findQueueFamilies_isComplete, SwapChainSupportDetails.isAdequate,
      List.any_eq_true, List.isEmpty_iff, hreq, and_assoc]
    intro _ _ _ _ _ _ _ _
    exact hreq

/-- The selection loop returns the first suitable device, or `none` when no
device is suitable. -/
theorem pickPhysicalDeviceGo_spec (devices : List PhysicalDevice) :
    match pickPhysicalDeviceGo devices with
    | some d => SuitableSpec d ∧
        ∃ pre post, devices = pre ++ d :: post ∧ ∀ d' ∈ pre, ¬ SuitableSpec d'
    | none => ∀ d ∈ devices, ¬ SuitableSpec d := by
  induction devices with
  | nil => simp [pickPhysicalDeviceGo]
  | cons d rest ih =>
    cases hd : isDeviceSuitable d with
    | true =>
      simp only [pickPhysicalDeviceGo, hd, if_true]
      exact ⟨(isDeviceSuitable_iff d).mp hd, [], rest, rfl, by simp⟩
    | false =>
      simp only [pickPhysicalDeviceGo, hd, Bool.false_eq_true, if_false]
      cases hgo : pickPhysicalDeviceGo rest with
      | some d2 =>
        rw [hgo] at ih
        obtain ⟨hs, pre, post, heq, hpre⟩ := ih
        refine ⟨hs, d :: pre, post, by rw [heq, List.cons_append], ?_⟩
        intro d' hd'
        rcases List.mem_cons.mp hd' with h | h
        · subst h
          intro hcon
          exact absurd ((isDeviceSuitable_iff d').mpr hcon) (by simp [hd])
        · exact hpre d' h
      | none =>
        rw [hgo] at ih
        intro d' hd'
        rcases List.mem_cons.mp hd' with h | h
        · subst h
          intro hcon
          exact absurd ((isDeviceSuitable_iff d').mpr hcon) (by simp [hd])
        · exact ih d' h

/-- Claim C1: device selection returns the first candidate satisfying all
four conditions (a graphics queue family, a presentation queue family, all
required extensions available, and non-empty surface format/present-mode
lists); when no candidate satisfies them — in particular on the empty
list — it fails with an error instead of returning a device. -/
theorem pickPhysicalDevice_first_suitable (devices : List PhysicalDevice) :
    match pickPhysicalDevice devices with
    | .ok d => SuitableSpec d ∧
        ∃ pre post, devices = pre ++ d :: post ∧ ∀ d' ∈ pre, ¬ SuitableSpec d'
    | .error _ => ∀ d ∈ devices, ¬ SuitableSpec d := by
  cases hemp : devices.isEmpty with
  | true =>
    have h : devices = [] := List.isEmpty_iff.mp hemp
    subst h
    simp [pickPhysicalDevice]
  | false =>
    have h := pickPhysicalDeviceGo_spec devices
    cases hgo : pickPhysicalDeviceGo devices with
    | some d =>
      rw [hgo] at h
      simpa [pickPhysicalDevice, hemp, hgo] using h
    | none =>
      rw [hgo] at h
      simpa [pickPhysicalDevice, hemp, hgo] using h

/-- Claim C2 counterexample: in `[graphics-only, graphics+presentation]`,
index 0 supports graphics, yet the search returns graphics index 1: the
slot is overwritten by the later family, so the "first family index that
supports that capability" policy of the claim does not hold. -/
theorem findQueueFamilies_displaced_counterexample :
    QueueFamily.supportsGraphics ⟨true, false⟩ = true ∧
    (findQueueFamilies [⟨true, false⟩, ⟨true, true⟩]).graphicsFamily = some 1 := by
  decide

/-- Claim C3 (code bug): the image-count clamp is guarded by
`maxImageArrayLayers > 0` instead of `maxImageCount > 0`, contradicting the
source's own comment "Max of 0 means there is no maximum". With
`minImageCount = 2`, `maxImageCount = 0` (unbounded) and
`maxImageArrayLayers = 1`, the code clamps the requested count down to 0
where the claim requires 3; with `maxImageArrayLayers = 0` no clamp happens
at all; the spec's `min=2, max=2` example yields 2 only because
`maxImageArrayLayers` happens to be positive. -/
theorem swapChainImageCount_clamp_bug :
    swapChainImageCount ⟨2, 0, ⟨0, 0⟩, ⟨0, 0⟩, ⟨0, 0⟩, 1⟩ = 0 ∧
    swapChainImageCount ⟨2, 0, ⟨0, 0⟩, ⟨0, 0⟩, ⟨0, 0⟩, 0⟩ = 3 ∧
    swapChainImageCount ⟨2, 2, ⟨0, 0⟩, ⟨0, 0⟩, ⟨0, 0⟩, 1⟩ = 2 := by
  decide

/-- Claim C8 (code bug): with no available layers, every requested
validation layer is missing (`missingLayers` — the loop's per-layer
detection — reports the full requested list), yet
`checkValidationLayerSupport` still returns `true` (main.cpp:325), so the
gate in `createInstance` succeeds instead of failing fatally, contradicting
the source's own comment "Error will be thrown in createInstance()"
(main.cpp:315). -/
theorem checkValidationLayerSupport_bug :
    missingLayers [] = validationLayers ∧ validationLayers ≠ [] ∧
    checkValidationLayerSupport [] = true ∧ createInstanceLayerCheck [] = Except.ok () :=
  ⟨rfl, by decide, rfl, rfl⟩

/-- Claim C9 (code bug): with graphics family 0 and presentation family 1,
both `vkGetDeviceQueue` calls store into the `graphicsQueue` member
(main.cpp:668-669), so after `createLogicalDevice` the graphics variable
holds the presentation family's queue and `presentationQueue` was never
assigned — the presentation handle is not retrieved into its own
variable. -/
theorem retrieveQueueHandles_bug :
    retrieveQueueHandles 0 1
      = { graphicsQueue := some (1, 0), presentationQueue := none } := rfl

/-- Any index the scan puts into the graphics slot comes from the
accumulator or is the absolute index `i + k` of a scanned family that
supports graphics. -/
theorem findQueueFamiliesGo_graphics_mem (qfs : List QueueFamily) :
    ∀ (i : Nat) (acc : QueueFamilyIndices) (j : Nat),
      (findQueueFamiliesGo qfs i acc).graphicsFamily = some j →
      acc.graphicsFamily = some j ∨
        ∃ k qf, qfs.get? k = some qf ∧ qf.supportsGraphics = true ∧ j = i + k := by
  induction qfs with
  | nil =>
    intro i acc j hj
    simp only [findQueueFamiliesGo] at hj
    exact Or.inl hj
  | cons qf rest ih =>
    intro i acc j hj
    obtain ⟨sg, sp⟩ := qf
    obtain ⟨g, p⟩ := acc
    cases sg <;> cases sp <;>
        simp only [findQueueFamiliesGo, QueueFamilyIndices.isComplete] at hj
    · rcases g with - | v <;> rcases p with - | w <;> simp only [Option.isSome] at hj
      · rcases ih _ _ _ hj with h | ⟨k, qf', h1, h2, h3⟩
        · exact Or.inl h
        · exact Or.inr ⟨k + 1, qf', by simpa using h1, h2, by omega⟩
      · rcases ih _ _ _ hj with h | ⟨k, qf', h1, h2, h3⟩
        · exact Or.inl h
        · exact Or.inr ⟨k + 1, qf', by simpa using h1, h2, by omega⟩
      · rcases ih _ _ _ hj with h | ⟨k, qf', h1, h2, h3⟩
        · exact Or.inl h
        · exact Or.inr ⟨k + 1, qf', by simpa using h1, h2, by omega⟩
      · exact Or.inl hj
    · rcases g with - | v <;> simp only [Option.isSome] at hj
      · rcases ih _ _ _ hj with h | ⟨k, qf', h1, h2, h3⟩
        · exact absurd h (by simp)
        · exact Or.inr ⟨k + 1, qf', by simpa using h1, h2, by omega⟩
      · exact Or.inl hj
    · rcases p with - | w <;> simp only [Option.isSome] at hj
      · rcases ih _ _ _ hj with h | ⟨k, qf', h1, h2, h3⟩
        · have hij : i = j := by simpa using h
          exact Or.inr ⟨0, ⟨true, false⟩, rfl, rfl, by omega⟩
        · exact Or.inr ⟨k + 1, qf', by simpa using h1, h2, by omega⟩
      · have hij : i = j := by simpa using hj
        exact Or.inr ⟨0, ⟨true, false⟩, rfl, rfl, by omega⟩
    · have hij : i = j := by simpa using hj
      exact Or.inr ⟨0, ⟨true, true⟩, rfl, rfl, by omega⟩

/-- Analogue of `findQueueFamiliesGo_graphics_mem` for presentation. -/
theorem findQueueFamiliesGo_presentation_mem (qfs : List QueueFamily) :
    ∀ (i : Nat) (acc : QueueFamilyIndices) (j : Nat),
      (findQueueFamiliesGo qfs i acc).presentationFamily = some j →
      acc.presentationFamily = some j ∨
        ∃ k qf, qfs.get? k = some qf ∧ qf.supportsPresentation = true ∧ j = i + k := by
  induction qfs with
  | nil =>
    intro i acc j hj
    simp only [findQueueFamiliesGo] at hj
    exact Or.inl hj
  | cons qf rest ih =>
    intro i acc j hj
    obtain ⟨sg, sp⟩ := qf
    obtain ⟨g, p⟩ := acc
    cases sg <;> cases sp <;>
        simp only [findQueueFamiliesGo, QueueFamilyIndices.isComplete] at hj
    · rcases g with - | v <;> rcases p with - | w <;> simp only [Option.isSome] at hj
      · rcases ih _ _ _ hj with h | ⟨k, qf', h1, h2, h3⟩
        · exact Or.inl h
        · exact Or.inr ⟨k + 1, qf', by simpa using h1, h2, by omega⟩
      · rcases ih _ _ _ hj with h | ⟨k, qf', h1, h2, h3⟩
        · exact Or.inl h
        · exact Or.inr ⟨k + 1, qf', by simpa using h1, h2, by omega⟩
      · rcases ih _ _ _ hj with h | ⟨k, qf', h1, h2, h3⟩
        · exact Or.inl h
        · exact Or.inr ⟨k + 1, qf', by simpa using h1, h2, by omega⟩
      · exact Or.inl hj
    · rcases g with - | v <;> simp only [Option.isSome] at hj
      · rcases ih _ _ _ hj with h | ⟨k, qf', h1, h2, h3⟩
        · have hij : i = j := by simpa using h
          exact Or.inr ⟨0, ⟨false, true⟩, rfl, rfl, by omega⟩
        · exact Or.inr ⟨k + 1, qf', by simpa using h1, h2, by omega⟩
      · have hij : i = j := by simpa using hj
        exact Or.inr ⟨0, ⟨false, true⟩, rfl, rfl, by omega⟩
    · rcases p with - | w <;> simp only [Option.isSome] at hj
      · rcases ih _ _ _ hj with h | ⟨k, qf', h1, h2, h3⟩
        · exact absurd h (by simp)
        · exact Or.inr ⟨k + 1, qf', by simpa using h1, h2, by omega⟩
      · exact Or.inl hj
    · have hij : i = j := by simpa using hj
      exact Or.inr ⟨0, ⟨true, true⟩, rfl, rfl, by omega⟩

/-- Claim C2 as amended: the scan is linear and exits once both slots are
filled; a slot is filled iff some family supports the role (the early exit
loses no role), and any returned index genuinely supports its role —
but each slot holds the most recently scanned supporting index, not the
first: `[graphics-only, presentation-only]` still yields `(0, 1)`, while a
later family supporting both capabilities does displace an earlier-found
graphics index, e.g. `[graphics-only, graphics+presentation]` yields
`(1, 1)` rather than `(0, 1)`. -/
theorem findQueueFamilies_amended (qfs : List QueueFamily) :
    ((findQueueFamilies qfs).graphicsFamily.isSome = true
        ↔ ∃ qf ∈ qfs, qf.supportsGraphics = true)
  ∧ ((findQueueFamilies qfs).presentationFamily.isSome = true
        ↔ ∃ qf ∈ qfs, qf.supportsPresentation = true)
  ∧ (∀ j, (findQueueFamilies qfs).graphicsFamily = some j →
        ∃ qf, qfs.get? j = some qf ∧ qf.supportsGraphics = true)
  ∧ (∀ j, (findQueueFamilies qfs).presentationFamily = some j →
        ∃ qf, qfs.get? j = some qf ∧ qf.supportsPresentation = true)
  ∧ findQueueFamilies [⟨true, false⟩, ⟨false, true⟩] = ⟨some 0, some 1⟩
  ∧ findQueueFamilies [⟨true, false⟩, ⟨true, true⟩] = ⟨some 1, some 1⟩ := by
  refine ⟨?_, ?_, ?_, ?_, by decide, by decide⟩
  · simp [findQueueFamilies, findQueueFamiliesGo_graphics_isSome, List.any_eq_true]
  · simp [findQueueFamilies, findQueueFamiliesGo_presentation_isSome, List.any_eq_true]
  · intro j hj
    unfold findQueueFamilies at hj
    rcases findQueueFamiliesGo_graphics_mem qfs 0 ⟨none, none⟩ j hj with h | ⟨k, qf, h1, h2, h3⟩
    · exact absurd h (by simp)
    · have hk : j = k := by omega
      subst hk
      exact ⟨qf, h1, h2⟩
  · intro j hj
    unfold findQueueFamilies at hj
    rcases findQueueFamiliesGo_presentation_mem qfs 0 ⟨none, none⟩ j hj with
      h | ⟨k, qf, h1, h2, h3⟩
    · exact absurd h (by simp)
    · have hk : j = k := by omega
      subst hk
      exact ⟨qf, h1, h2⟩

/-- Witness for the amended claim C2 at the displacement scenario. -/
theorem findQueueFamilies_amended_witness :
    ∃ qf, ([⟨true, false⟩, ⟨true, true⟩] : List QueueFamily).get? 1 = some qf ∧
      qf.supportsGraphics = true :=
  (findQueueFamilies_amended [⟨true, false⟩, ⟨true, true⟩]).2.2.1 1 (by decide)

/-- Claim C4 counterexample: at `currentExtent = (UINT32_MAX, 100)` the
extent is not the undefined sentinel in both components, so the claim
requires it returned verbatim; but the code tests only the width against
`UINT32_MAX` and therefore clamps the framebuffer size instead. -/
theorem chooseSwapExtent_sentinel_counterexample :
    chooseSwapExtent ⟨1, 1, ⟨uint32Max, 100⟩, ⟨0, 0⟩, ⟨0, 0⟩, 1⟩ 5 7 = ⟨0, 0⟩ ∧
    (100 : Nat) ≠ uint32Max ∧ (⟨0, 0⟩ : VkExtent2D) ≠ ⟨uint32Max, 100⟩ := by
  decide

/-- Claim C4 as amended: the sentinel test is on the width component only —
the chooser returns `currentExtent` verbatim exactly when
`currentExtent.width ≠ UINT32_MAX`, and otherwise clamps the framebuffer
size component-wise into `[minImageExtent, maxImageExtent]`. -/
theorem chooseSwapExtent_amended (caps : VkSurfaceCapabilitiesKHR)
    (framebufferWidth framebufferHeight : Nat)
    (hw : caps.minImageExtent.width ≤ caps.maxImageExtent.width)
    (hh : caps.minImageExtent.height ≤ caps.maxImageExtent.height) :
    (caps.currentExtent.width ≠ uint32Max →
      chooseSwapExtent caps framebufferWidth framebufferHeight = caps.currentExtent)
  ∧ (caps.currentExtent.width = uint32Max →
      chooseSwapExtent caps framebufferWidth framebufferHeight =
        ⟨if framebufferWidth < caps.minImageExtent.width then caps.minImageExtent.width
          else if caps.maxImageExtent.width < framebufferWidth then caps.maxImageExtent.width
          else framebufferWidth,
         if framebufferHeight < caps.minImageExtent.height then caps.minImageExtent.height
          else if caps.maxImageExtent.height < framebufferHeight then caps.maxImageExtent.height
          else framebufferHeight⟩) := by
  constructor
  · intro hne
    simp [chooseSwapExtent, hne]
  · intro heq
    simp only [chooseSwapExtent, heq, ne_eq, not_true_eq_false, if_false]
    simp only [VkExtent2D.mk.injEq]
    constructor <;> split_ifs <;> omega

/-- Witness for the amended claim C4 at the spec's own example: undefined
extent, bounds `[100,2000]²`, framebuffer `(50, 3000)` gives `(100, 2000)`. -/
theorem chooseSwapExtent_amended_witness :
    chooseSwapExtent ⟨2, 2, ⟨uint32Max, uint32Max⟩, ⟨100, 100⟩, ⟨2000, 2000⟩, 1⟩ 50 3000
      = ⟨100, 2000⟩ :=
  ((chooseSwapExtent_amended ⟨2, 2, ⟨uint32Max, uint32Max⟩, ⟨100, 100⟩, ⟨2000, 2000⟩, 1⟩
      50 3000 (by decide) (by decide)).2 rfl).trans (by decide)

/-- Claim C5: on a non-empty format list, the chooser returns a
BGRA8-sRGB/nonlinear-sRGB member whenever one occurs anywhere in the list,
and otherwise returns the first element of the list. -/
theorem chooseSwapSurfaceFormat_spec (availableFormats : List VkSurfaceFormatKHR)
    (h : availableFormats ≠ []) :
    ((∃ f ∈ availableFormats,
        f.format = vkFormatB8G8R8A8Srgb ∧ f.colorSpace = vkColorSpaceSrgbNonlinearKhr) →
      ∃ r, chooseSwapSurfaceFormat availableFormats = some r ∧ r ∈ availableFormats ∧
        r.format = vkFormatB8G8R8A8Srgb ∧ r.colorSpace = vkColorSpaceSrgbNonlinearKhr)
  ∧ ((∀ f ∈ availableFormats,
        ¬(f.format = vkFormatB8G8R8A8Srgb ∧ f.colorSpace = vkColorSpaceSrgbNonlinearKhr)) →
      ∀ x xs, availableFormats = x :: xs →
        chooseSwapSurfaceFormat availableFormats = some x) := by
  constructor
  · rintro ⟨f, hf, hfmt, hcs⟩
    cases hfind : availableFormats.find?
        (fun g => g.format == vkFormatB8G8R8A8Srgb
          && g.colorSpace == vkColorSpaceSrgbNonlinearKhr) with
    | some r =>
      have hp := List.find?_some hfind
      have hm := List.mem_of_find?_eq_some hfind
      simp only [Bool.and_eq_true, beq_iff_eq] at hp
      exact ⟨r, by simp [chooseSwapSurfaceFormat, hfind], hm, hp.1, hp.2⟩
    | none =>
      have hcontra := List.find?_eq_none.mp hfind f hf
      simp [hfmt, hcs] at hcontra
  · intro hnone x xs hcons
    have hfind : availableFormats.find?
        (fun g => g.format == vkFormatB8G8R8A8Srgb
          && g.colorSpace == vkColorSpaceSrgbNonlinearKhr) = none := by
      rw [List.find?_eq_none]
      intro g hg
      have := hnone g hg
      simp only [Bool.and_eq_true, beq_iff_eq]
      tauto
    subst hcons
    simp [chooseSwapSurfaceFormat, hfind]

/-- Witness for claim C5: a list containing the preferred entry in second
position yields a `some` result. -/
theorem chooseSwapSurfaceFormat_spec_witness :
    (chooseSwapSurfaceFormat
        [⟨0, 0⟩, ⟨vkFormatB8G8R8A8Srgb, vkColorSpaceSrgbNonlinearKhr⟩]).isSome = true := by
  obtain ⟨r, hr, -⟩ :=
    (chooseSwapSurfaceFormat_spec
        [⟨0, 0⟩, ⟨vkFormatB8G8R8A8Srgb, vkColorSpaceSrgbNonlinearKhr⟩] (by decide)).1
      ⟨⟨vkFormatB8G8R8A8Srgb, vkColorSpaceSrgbNonlinearKhr⟩, by decide, rfl, rfl⟩
  rw [hr]
  rfl

/-- Claim C6: the present-mode chooser returns `MAILBOX` iff it occurs in
the list, and `FIFO` otherwise — including on the empty list and on lists
containing no recognized mode. -/
theorem chooseSwapPresentationMode_spec (availablePresentationModes : List Nat) :
    chooseSwapPresentationMode availablePresentationModes =
      if vkPresentModeMailboxKhr ∈ availablePresentationModes then vkPresentModeMailboxKhr
      else vkPresentModeFifoKhr := by
  cases hfind : availablePresentationModes.find? (fun m => m == vkPresentModeMailboxKhr) with
  | some m =>
    have hp : m = vkPresentModeMailboxKhr := by simpa using List.find?_some hfind
    have hm := List.mem_of_find?_eq_some hfind
    subst hp
    simp [chooseSwapPresentationMode, hfind, hm]
  | none =>
    have hno : vkPresentModeMailboxKhr ∉ availablePresentationModes := by
      intro hmem
      have := List.find?_eq_none.mp hfind _ hmem
      simp at this
    simp [chooseSwapPresentationMode, hfind, hno]

/-- Claim C7: the swapchain declares concurrent sharing with both family
indices listed exactly when the graphics and presentation indices differ,
and exclusive sharing exactly when they coincide. -/
theorem swapChainSharingConfig_spec (graphicsFamily presentationFamily : Nat) :
    ((swapChainSharingConfig graphicsFamily presentationFamily).imageSharingMode
        = VkSharingMode.concurrent ↔ graphicsFamily ≠ presentationFamily)
  ∧ ((swapChainSharingConfig graphicsFamily presentationFamily).imageSharingMode
        = VkSharingMode.exclusive ↔ graphicsFamily = presentationFamily)
  ∧ (graphicsFamily ≠ presentationFamily →
      (swapChainSharingConfig graphicsFamily presentationFamily).queueFamilyIndexCount = 2 ∧
      (swapChainSharingConfig graphicsFamily presentationFamily).pQueueFamilyIndices
        = [graphicsFamily, presentationFamily])
  ∧ (graphicsFamily = presentationFamily →
      (swapChainSharingConfig graphicsFamily presentationFamily).queueFamilyIndexCount = 0 ∧
      (swapChainSharingConfig graphicsFamily presentationFamily).pQueueFamilyIndices = []) := by
  by_cases h : graphicsFamily = presentationFamily <;> simp [swapChainSharingConfig, h]

/-- Witness for claim C7 at the two scenarios of the spec: distinct indices
(0, 1) share concurrently across both, a single index 0 is exclusive. -/
theorem swapChainSharingConfig_spec_witness :
    (swapChainSharingConfig 0 1).pQueueFamilyIndices = [0, 1] ∧
    (swapChainSharingConfig 0 0).queueFamilyIndexCount = 0 :=
  ⟨((swapChainSharingConfig_spec 0 1).2.2.1 (by decide)).2,
   ((swapChainSharingConfig_spec 0 0).2.2.2 rfl).1⟩

/-- Claim C10: for any device that passed the suitability check, the format
list is non-empty, so the `Option`-indexing fallback of the surface-format
chooser is never taken out of bounds: the chooser returns `some` result. -/
theorem chooseSwapSurfaceFormat_ok_of_suitable (d : PhysicalDevice)
    (h : isDeviceSuitable d = true) :
    (chooseSwapSurfaceFormat d.swapChainSupport.formats).isSome = true := by
  obtain ⟨-, -, -, hfmts, -⟩ := (isDeviceSuitable_iff d).mp h
  cases hfind : d.swapChainSupport.formats.find?
      (fun g => g.format == vkFormatB8G8R8A8Srgb
        && g.colorSpace == vkColorSpaceSrgbNonlinearKhr) with
  | some f => simp [chooseSwapSurfaceFormat, hfind]
  | none =>
    obtain ⟨x, xs, hx⟩ := List.exists_cons_of_ne_nil hfmts
    simp only [chooseSwapSurfaceFormat, hx]
    cases List.find?
        (fun f => f.format == vkFormatB8G8R8A8Srgb
          && f.colorSpace == vkColorSpaceSrgbNonlinearKhr) (x :: xs) <;> simp

/-- Witness for claim C10 at a concrete suitable device. -/
theorem chooseSwapSurfaceFormat_ok_of_suitable_witness :
    (chooseSwapSurfaceFormat suitableDeviceExample.swapChainSupport.formats).isSome = true :=
  chooseSwapSurfaceFormat_ok_of_suitable suitableDeviceExample (by decide)

end LearningVulkan
